import Mathlib

/-!
# Verification of the aigccloud-backend payment/settlement pipeline

Shallow embedding of the order-settlement code of the repository:

* `app/core/web3_client.py` — chain verification gateway
  (`get_transaction`, `verify_transfer`)
* `app/tasks/arq_tasks.py` — background sweepers
  (`process_pending_orders`, `process_paid_tx_orders`)
* `app/api/v1/endpoints/payment.py` — webhook settlement
  (`wechat_callback`), `cancel_order`, `mock_pay_order`
* `app/core/incentive_service.py` — `IncentiveService.grant_incentive`
* `app/core/parse_client.py` — `ParseClient.update_object` (unconditional PUT)

Store writes are modelled as an explicit trace of `Action`s; fallible
external calls (HTTP, RPC) are modelled with `Except`/`RpcResult`.
-/

namespace AigcCloud

/-- Python `int(...)` applied to a rational value: truncation toward zero. -/
def pyInt (q : ℚ) : ℤ := if 0 ≤ q then ⌊q⌋ else -⌊-q⌋

/-- Python `str.lower()`, character by character. -/
def pyLower (s : String) : String := String.mk (s.data.map Char.toLower)

/-- Order status strings used across the code base.  `payment.py` declares
`OrderStatus` with pending/paid/failed/refunded/cancelled; the ARQ sweeper
additionally writes the raw strings `"completed"` and `"payment_failed"`. -/
inductive OrderStatus where
  | pending
  | paid
  | completed
  | payment_failed
  | failed
  | refunded
  | cancelled
deriving DecidableEq, Repr

/-- `tx_status` strings produced by `Web3Client.get_transaction` /
`verify_transfer`: "not_found", "pending", "confirmed", "failed", and the
catch-all "error" used when an exception is caught. -/
inductive TxStatus where
  | not_found
  | pending
  | confirmed
  | failed
  | error
deriving DecidableEq, Repr

/-- Outcome of an RPC/HTTP call: a value, or a raised exception
(timeout, connection failure, ...). -/
inductive RpcResult (α : Type) where
  | ok (v : α)
  | exn (msg : String)
deriving DecidableEq, Repr

/-- The fields of an on-chain transaction object that
`Web3Client.get_transaction` reads from `eth_getTransactionByHash`
(`from`, `to`, `value`; the hex `value` is modelled already parsed). -/
structure ChainTx where
  fromAddr : String
  toAddr : String
  value : Nat
deriving DecidableEq, Repr

/-- Result dictionary of `Web3Client.get_transaction`, with the same
defaults that downstream `.get` calls use (`from`/`to` default `""`,
`value` default `0x0`). -/
structure TxInfo where
  success : Bool
  txStatus : TxStatus
  confirmed : Bool := false
  fromAddr : String := ""
  toAddr : String := ""
  value : Nat := 0
deriving DecidableEq, Repr

/-- `Web3Client.get_transaction` (web3_client.py lines 195-251), for a
configured `rpc_url`.  `txResp` is the `eth_getTransactionByHash` call and
`receiptResp` the `eth_getTransactionReceipt` call; `RpcResult.exn` models a
raised exception (e.g. httpx timeout), which the function catches and turns
into `{"success": False, "tx_status": "error"}`.  A receipt with status
`"0x1"` is confirmed, a present receipt with any other status is failed,
an absent receipt is pending. -/
def getTransaction (txResp : RpcResult (Option ChainTx))
    (receiptResp : RpcResult (Option String)) : TxInfo :=
  match txResp with
  | RpcResult.exn _ => { success := false, txStatus := TxStatus.error }
  | RpcResult.ok none => { success := false, txStatus := TxStatus.not_found }
  | RpcResult.ok (some tx) =>
    match receiptResp with
    | RpcResult.exn _ => { success := false, txStatus := TxStatus.error }
    | RpcResult.ok none =>
      { success := true, txStatus := TxStatus.pending, confirmed := false,
        fromAddr := tx.fromAddr, toAddr := tx.toAddr, value := tx.value }
    | RpcResult.ok (some receiptStatus) =>
      if receiptStatus = "0x1" then
        { success := true, txStatus := TxStatus.confirmed, confirmed := true,
          fromAddr := tx.fromAddr, toAddr := tx.toAddr, value := tx.value }
      else
        { success := true, txStatus := TxStatus.failed, confirmed := false,
          fromAddr := tx.fromAddr, toAddr := tx.toAddr, value := tx.value }

/-- Result dictionary of `Web3Client.verify_transfer`.  A missing
`"verified"` key reads as falsy downstream, modelled by the default
`verified := false`. -/
structure VerifyOutcome where
  success : Bool
  verified : Bool := false
  txStatus : TxStatus
  errorMsg : Option String := none
deriving DecidableEq, Repr

/-- `Web3Client.verify_transfer` (web3_client.py lines 253-299), for a
configured `rpc_url`, applied to the result of `get_transaction`:
query failure propagates the status; pending is success-but-unverified;
failed is an explicit failure; confirmed transactions are checked for
sender address, recipient address, and a transferred value at least the
expected amount. -/
def verifyTransfer (txInfo : TxInfo) (fromAddress toAddress : String)
    (amount : Nat) : VerifyOutcome :=
  if txInfo.success = false then
    { success := false, txStatus := txInfo.txStatus, errorMsg := some "query failed" }
  else if txInfo.txStatus = TxStatus.pending then
    { success := true, verified := false, txStatus := TxStatus.pending }
  else if txInfo.txStatus = TxStatus.failed then
    { success := false, verified := false, txStatus := TxStatus.failed,
      errorMsg := some "tx execution failed" }
  else if pyLower txInfo.fromAddr ≠ pyLower fromAddress then
    { success := false, txStatus := TxStatus.confirmed, errorMsg := some "from mismatch" }
  else if pyLower txInfo.toAddr ≠ pyLower toAddress then
    { success := false, txStatus := TxStatus.confirmed, errorMsg := some "to mismatch" }
  else if txInfo.value < amount then
    { success := false, txStatus := TxStatus.confirmed, errorMsg := some "amount too low" }
  else
    { success := true, verified := true, txStatus := TxStatus.confirmed }

example :
    (verifyTransfer
      (getTransaction (RpcResult.ok (some ⟨"0xA", "0xB", 5⟩)) (RpcResult.ok (some "0x1")))
      "0xa" "0xb" 10) =
    { success := false, txStatus := TxStatus.confirmed, errorMsg := some "amount too low" } := by
  decide

example :
    (verifyTransfer (getTransaction (RpcResult.exn "timeout") (RpcResult.ok none))
      "0xa" "0xb" 10).txStatus = TxStatus.error := by
  decide

/-! ## Store writes as an explicit action trace -/

/-- Fields written to an `Order` object by the settlement code.  A `none`
field means the key is absent from the update dictionary.  The code never
writes a `failureReason` key anywhere, so the patch has no such field. -/
structure OrderPatch where
  status : Option OrderStatus := none
  paidAt : Option String := none
  completedAt : Option String := none
  transactionId : Option (Option String) := none
deriving DecidableEq, Repr

/-- Fields written to a `Product` object (`owner` set, `sales` Increment). -/
structure ProductPatch where
  owner : Option (Option String) := none
  salesIncrement : Option Int := none
deriving DecidableEq, Repr

/-- Fields written to a `_User` object by the settlement code. -/
structure UserPatch where
  isPaid : Option Bool := none
  paidExpireAt : Option String := none
  firstRechargeRewarded : Option Bool := none
deriving DecidableEq, Repr

/-- An `IncentiveLog` row as created by the settlement code and by
`IncentiveService.grant_incentive`. -/
structure IncentiveLogEntry where
  userId : String
  web3Address : String
  itype : String
  amount : ℚ
  txHash : Option String := none
  description : String := ""
  status : Option String := none
  relatedId : Option String := none
deriving DecidableEq, Repr

/-- A `Purchase` row created by the purchase branch of the webhook. -/
structure PurchaseEntry where
  userId : String
  productId : Option String
  orderId : String
  name : Option String := none
  price : ℚ := 0
  quantity : Option Int := none
deriving DecidableEq, Repr

/-- One store/chain side effect issued by the settlement code, in program
order.  `mint` is the `web3_client.mint` call crediting coins on chain. -/
inductive Action where
  | updateOrder (objectId : String) (patch : OrderPatch)
  | updateProduct (productId : String) (patch : ProductPatch)
  | updateUser (userId : String) (patch : UserPatch)
  | createIncentiveLog (entry : IncentiveLogEntry)
  | createPurchase (p : PurchaseEntry)
  | mint (address : String) (amount : ℤ)
  | enqueueTask (taskName : String) (arg : String)
deriving DecidableEq, Repr

/-! ## ARQ sweeper `process_paid_tx_orders` (arq_tasks.py lines 93-155) -/

/-- The `Order` fields read by `process_paid_tx_orders`. -/
structure SwOrder where
  objectId : String
  status : OrderStatus
  txHash : Option String := none
  buyerAddress : Option String := none
  sellerAddress : Option String := none
  amount : Int := 0
  productId : Option String := none
deriving DecidableEq, Repr

/-- The per-order status dispatch of `process_paid_tx_orders`
(arq_tasks.py lines 128-146), as a function of the verification result:
`tx_status == "confirmed" and verified` transfers product ownership (when a
`productId` is present), increments sales, and marks the order completed;
`tx_status == "failed"` sets status `payment_failed` (and nothing else —
no `failureReason` is written); every other status falls through with no
store write at all. -/
def sweeperDispatch (order : SwOrder) (vr : VerifyOutcome) (nowIso : String) :
    List Action :=
  if vr.txStatus = TxStatus.confirmed ∧ vr.verified = true then
    (match order.productId with
     | some pid =>
       [Action.updateProduct pid { owner := some order.buyerAddress, salesIncrement := some 1 }]
     | none => [])
    ++ [Action.updateOrder order.objectId
          { status := some OrderStatus.completed, completedAt := some nowIso }]
  else if vr.txStatus = TxStatus.failed then
    [Action.updateOrder order.objectId { status := some OrderStatus.payment_failed }]
  else
    []

/-- The type of the verification helper the sweeper tries to import:
`_verify_tx_status(tx_hash, buyer_address, seller_address, amount)`. -/
def VerifyFn : Type :=
  String → Option String → Option String → Int → VerifyOutcome

/-- The top-level names bound in module `app.api.v1.endpoints.payment`
(payment.py): its imports and its own definitions. -/
def paymentModuleNames : List String :=
  ["APIRouter", "HTTPException", "Depends", "Request", "BaseModel", "Optional",
   "Enum", "datetime", "timedelta", "ET", "parse_client", "web3_client",
   "generate_order_no", "verify_sign", "get_current_user_id", "settings",
   "router", "PaymentType", "SubscriptionPlan", "OrderType", "OrderStatus",
   "CreateOrderRequest", "CartItem", "CreateCartOrderRequest", "OrderResponse",
   "SUBSCRIPTION_PLANS", "generate_sign", "create_wechat_prepay", "dict_to_xml",
   "xml_to_dict", "create_order", "create_cart_order", "get_order",
   "get_user_orders", "wechat_callback", "get_subscription_plans",
   "cancel_order", "mock_pay_order"]

/-- The sweeper's `from app.api.v1.endpoints.payment import _verify_tx_status`
(arq_tasks.py line 119).  No top-level name `_verify_tx_status` is bound in
payment.py (see `paymentModuleNames`), so the import raises `ImportError`;
modelled as `none`. -/
def importVerifyTxStatus : Option VerifyFn := none

/-- `process_paid_tx_orders` (arq_tasks.py lines 93-155): iterate the batch
of orders with `status == "paid"`; skip orders without a `txHash`; for the
rest, import `_verify_tx_status` and dispatch on its result, counting
completed orders in `processed`; any exception inside the per-order `try`
(including the `ImportError` from the missing import) is caught and the
loop continues with the next order. -/
def paidTxStep (nowIso : String) (acc : Nat × List Action) (order : SwOrder) :
    Nat × List Action :=
  match order.txHash with
  | none => acc
  | some txh =>
    match importVerifyTxStatus with
    | none => acc
    | some f =>
      let vr := f txh order.buyerAddress order.sellerAddress order.amount
      let acts := sweeperDispatch order vr nowIso
      let inc : Nat := if vr.txStatus = TxStatus.confirmed ∧ vr.verified = true then 1 else 0
      (acc.1 + inc, acc.2 ++ acts)

def processPaidTxOrders (orders : List SwOrder) (nowIso : String) :
    Nat × List Action :=
  orders.foldl (paidTxStep nowIso) (0, [])

example :
    processPaidTxOrders [⟨"o1", OrderStatus.paid, some "tx1", some "0xa", some "0xb", 10, some "p1"⟩] "t0" =
    (0, []) := by
  decide

/-! ## ARQ sweeper `process_pending_orders` (arq_tasks.py lines 12-54) -/

/-- The `Order` fields read by `process_pending_orders`. -/
structure POrder where
  objectId : String
  orderId : String
deriving DecidableEq, Repr

/-- The fields of a WeChat `query_order` result that the sweeper reads. -/
structure WxPayResult where
  tradeState : String
deriving DecidableEq, Repr

/-- The update dictionary `process_pending_orders` writes on success:
`{"status": "paid"}` — and nothing else; in particular no `paidAt`. -/
def arqPendingPatch : OrderPatch := { status := some OrderStatus.paid }

/-- `process_pending_orders` (arq_tasks.py lines 12-54): for each pending
order, query the gateway (`wechat_pay.query_order`, which may raise); on
`trade_state == "SUCCESS"`, update the order to `paid` (the store update
may itself raise) and enqueue `process_paid_order`; any exception in the
per-order `try` block is caught and the loop continues. -/
def pendingStep (queryOrder : String → Except String WxPayResult)
    (updateOk : String → OrderPatch → Except String Unit)
    (acc : Nat × List Action) (o : POrder) : Nat × List Action :=
  match queryOrder o.orderId with
  | Except.error _ => acc
  | Except.ok pr =>
    if pr.tradeState = "SUCCESS" then
      match updateOk o.objectId arqPendingPatch with
      | Except.error _ => acc
      | Except.ok _ =>
        (acc.1 + 1,
         acc.2 ++ [Action.updateOrder o.objectId arqPendingPatch,
                   Action.enqueueTask "process_paid_order" o.objectId])
    else acc

def processPendingOrders (queryOrder : String → Except String WxPayResult)
    (updateOk : String → OrderPatch → Except String Unit)
    (orders : List POrder) : Nat × List Action :=
  orders.foldl (pendingStep queryOrder updateOk) (0, [])

example :
    processPendingOrders (fun _ => Except.ok ⟨"SUCCESS"⟩) (fun _ _ => Except.ok ())
      [⟨"obj1", "ord1"⟩] =
    (1, [Action.updateOrder "obj1" arqPendingPatch,
         Action.enqueueTask "process_paid_order" "obj1"]) := by
  decide

/-! ## Webhook settlement `wechat_callback` (payment.py lines 394-550) -/

/-- One entry of `SUBSCRIPTION_PLANS` (payment.py lines 81-117). -/
structure PlanInfo where
  price : ℚ
  days : Nat
  coins : Int
deriving DecidableEq, Repr

/-- `SUBSCRIPTION_PLANS` (payment.py lines 81-117), keyed by plan id. -/
def SUBSCRIPTION_PLANS : List (String × PlanInfo) :=
  [("trial", { price := 1/10, days := 3, coins := 100 }),
   ("monthly", { price := 29, days := 30, coins := 2900 }),
   ("halfyear", { price := 99, days := 180, coins := 9900 }),
   ("yearly", { price := 139, days := 365, coins := 13900 }),
   ("threeyear", { price := 299, days := 1095, coins := 29900 })]

/-- `SUBSCRIPTION_PLANS.get(plan)`. -/
def lookupPlan (p : String) : Option PlanInfo :=
  (SUBSCRIPTION_PLANS.find? (fun kv => kv.1 = p)).map (fun kv => kv.2)

/-- A cart item of a purchase order, as read by the webhook loop. -/
structure CartItem where
  product_id : Option String := none
  name : String := ""
  price : ℚ := 0
  quantity : Int := 1
deriving DecidableEq, Repr

/-- The `Order` fields read by `wechat_callback` / `mock_pay_order`. -/
structure WOrder where
  objectId : String
  orderNo : String := ""
  userId : String
  otype : String
  amount : ℚ
  status : OrderStatus
  plan : Option String := none
  productId : Option String := none
  items : List CartItem := []
deriving DecidableEq, Repr

/-- The `_User` fields read by the settlement handlers. -/
structure WUser where
  objectId : String
  username : String := ""
  web3Address : Option String := none
  inviterId : Option String := none
  firstRechargeRewarded : Bool := false
  paidExpireAt : Option String := none
deriving DecidableEq, Repr

/-- `web3_client.mint` under the development configuration the code ships
with (`rpc_url` unset): always succeeds, returning the mock transaction
hash `"mock_mint_{amount}"` (web3_client.py lines 103-117). -/
def web3MintTxHash (amount : ℤ) : Option String :=
  some ("mock_mint_" ++ toString amount)

/-- Invite first-recharge reward of the webhook handler:
`reward = int(order["amount"] * 0.1)` (payment.py line 528). -/
def inviteRewardCallback (amount : ℚ) : ℤ := pyInt (amount * (1/10))

/-- Invite first-recharge reward of the mock-pay handler:
`reward = int(order["amount"] * 10)` (payment.py line 702). -/
def inviteRewardMockPay (amount : ℚ) : ℤ := pyInt (amount * 10)

/-- The subscription branch (payment.py lines 438-473): look up the plan;
update the user's membership (`isPaid`, `paidExpireAt` — the datetime
arithmetic of lines 443-453 is abstracted into the `newExpire` argument,
no claim depends on its value); then, when the user has a `web3Address`
and the plan grants coins, mint the coins and write one IncentiveLog. -/
def subscriptionEffects (order : WOrder) (user : WUser) (newExpire : String) :
    List Action :=
  match order.plan with
  | none => []
  | some planId =>
    match lookupPlan planId with
    | none => []
    | some plan =>
      [Action.updateUser order.userId
         { isPaid := some true, paidExpireAt := some newExpire }]
      ++ (match user.web3Address with
          | some addr =>
            if 0 < plan.coins then
              [Action.mint addr plan.coins,
               Action.createIncentiveLog
                 { userId := order.userId, web3Address := addr,
                   itype := "subscription", amount := (plan.coins : ℚ),
                   txHash := web3MintTxHash plan.coins,
                   description := "subscription bonus coins" }]
            else []
          | none => [])

/-- The recharge branch (payment.py lines 476-492):
`coins = int(order["amount"] * 100)`; when the user has a `web3Address`,
mint the coins and write one IncentiveLog. -/
def rechargeEffects (order : WOrder) (user : WUser) : List Action :=
  let coins := pyInt (order.amount * 100)
  match user.web3Address with
  | some addr =>
    [Action.mint addr coins,
     Action.createIncentiveLog
       { userId := order.userId, web3Address := addr, itype := "recharge",
         amount := (coins : ℚ), txHash := web3MintTxHash coins,
         description := "recharge coins" }]
  | none => []

/-- The purchase branch (payment.py lines 495-522): with a non-empty
`items` list, create one Purchase row per item and increment the product's
sales by the item quantity (the inner `try/except: pass` swallows store
errors); otherwise with a single `productId`, create one Purchase row and
increment sales by 1. -/
def purchaseEffects (order : WOrder) : List Action :=
  if order.items ≠ [] then
    order.items.flatMap
      (fun item =>
        [Action.createPurchase
           { userId := order.userId, productId := item.product_id,
             orderId := order.objectId, name := some item.name,
             price := item.price, quantity := some item.quantity }]
        ++ (match item.product_id with
            | some pid =>
              [Action.updateProduct pid { salesIncrement := some item.quantity }]
            | none => []))
  else
    match order.productId with
    | some pid =>
      [Action.createPurchase
         { userId := order.userId, productId := some pid,
           orderId := order.objectId, price := order.amount },
       Action.updateProduct pid { salesIncrement := some 1 }]
    | none => []

/-- The invite first-recharge block (payment.py lines 524-548, and its
duplicate at lines 699-717): when the (re-fetched) user has an `inviterId`
and `firstRechargeRewarded` is not set, mint `rewardCoins` to the inviter's
`web3Address` (when bound) with one IncentiveLog, then set
`firstRechargeRewarded` on the user. -/
def inviteRewardActions (rewardCoins : ℤ) (user : WUser) (inviter : WUser) :
    List Action :=
  match user.inviterId with
  | none => []
  | some invId =>
    if user.firstRechargeRewarded then []
    else
      (match inviter.web3Address with
       | some addr =>
         [Action.mint addr rewardCoins,
          Action.createIncentiveLog
            { userId := invId, web3Address := addr, itype := "invite",
              amount := (rewardCoins : ℚ), txHash := web3MintTxHash rewardCoins,
              description := "invite first recharge reward" }]
       | none => [])
      ++ [Action.updateUser user.objectId { firstRechargeRewarded := some true }]

/-- Result of the webhook settlement core: the handler replies with a
`SUCCESS` XML body on every one of these paths. -/
structure SettleResult where
  success : Bool
  actions : List Action
deriving DecidableEq, Repr

/-- The settlement core of `wechat_callback` (payment.py lines 411-550),
after signature verification and order lookup succeed: short-circuit when
`order["status"] == OrderStatus.PAID` (idempotence guard — note the
comparison is against `"paid"`, not `"completed"`); otherwise update the
order to `paid` with `paidAt` and `transactionId`, run the kind-specific
branch, then the invite first-recharge block with
`reward = int(order["amount"] * 0.1)`. -/
def wechatCallbackSettle (order : WOrder) (user : WUser) (inviter : WUser)
    (nowIso : String) (transactionId : Option String) (newExpire : String) :
    SettleResult :=
  if order.status = OrderStatus.paid then
    { success := true, actions := [] }
  else
    let base :=
      [Action.updateOrder order.objectId
         { status := some OrderStatus.paid, paidAt := some nowIso,
           transactionId := some transactionId }]
    let eff :=
      if order.otype = "subscription" ∧ order.plan.isSome then
        subscriptionEffects order user newExpire
      else if order.otype = "recharge" then
        rechargeEffects order user
      else if order.otype = "purchase" then
        purchaseEffects order
      else []
    let invite := inviteRewardActions (inviteRewardCallback order.amount) user inviter
    { success := true, actions := base ++ eff ++ invite }

example :
    (wechatCallbackSettle
      ⟨"o1", "N1", "u1", "recharge", 1, OrderStatus.paid, none, none, []⟩
      ⟨"u1", "alice", some "0xa", none, false, none⟩
      ⟨"u2", "bob", none, none, false, none⟩ "t0" (some "wx1") "e0") =
    { success := true, actions := [] } := by
  simp [wechatCallbackSettle]

example :
    (wechatCallbackSettle
      ⟨"o1", "N1", "u1", "recharge", 1, OrderStatus.completed, none, none, []⟩
      ⟨"u1", "alice", some "0xa", none, false, none⟩
      ⟨"u2", "bob", none, none, false, none⟩ "t0" (some "wx1") "e0").actions =
    [Action.updateOrder "o1"
       { status := some OrderStatus.paid, paidAt := some "t0",
         transactionId := some (some "wx1") },
     Action.mint "0xa" 100,
     Action.createIncentiveLog
       { userId := "u1", web3Address := "0xa", itype := "recharge",
         amount := 100, txHash := web3MintTxHash 100,
         description := "recharge coins" }] := by
  norm_num [wechatCallbackSettle, rechargeEffects, inviteRewardActions,
    inviteRewardCallback, pyInt]
  rw [if_neg (by decide : ¬ (OrderStatus.completed = OrderStatus.paid))]

/-! ## `IncentiveService.grant_incentive` (incentive_service.py lines 124-190) -/

/-- `IncentiveService.grant_incentive`: reject a missing `web3_address`
(modelled as the empty string, the falsy case) and a non-positive amount;
otherwise send the chain transfer (`_send_eth_transaction`, whose outcome
is the `txSuccess`/`txHash` arguments) and append one IncentiveLog row —
unconditionally: there is no lookup for an existing entry of the same
`(relatedId, type)` before the insert.  Returns the success flag and the
new log list. -/
def grantIncentive (logs : List IncentiveLogEntry) (userId web3Address : String)
    (incentiveType : String) (amount : ℚ) (description : String)
    (relatedId : Option String) (txSuccess : Bool) (txHash : Option String) :
    Bool × List IncentiveLogEntry :=
  if web3Address = "" then (false, logs)
  else if amount ≤ 0 then (false, logs)
  else
    (txSuccess,
     logs ++ [{ userId := userId, web3Address := web3Address,
                itype := incentiveType, amount := amount, txHash := txHash,
                description := description,
                status := some (if txSuccess then "success" else "failed"),
                relatedId := relatedId }])

/-- Number of ledger entries recorded for a given `(orderId, kind)` pair
(`relatedId` carries the order id). -/
def ledgerCount (logs : List IncentiveLogEntry) (orderId kind : String) : Nat :=
  (logs.filter (fun e => e.relatedId = some orderId ∧ e.itype = kind)).length

/-! ## `cancel_order` (payment.py lines 567-587) -/

/-- HTTP error statuses raised by `cancel_order`. -/
inductive HttpError where
  | notFound
  | forbidden
  | badRequest
deriving DecidableEq, Repr

/-- The `Order` fields read by `cancel_order`. -/
structure COrder where
  objectId : String
  userId : String
  status : OrderStatus
deriving DecidableEq, Repr

/-- `cancel_order` (payment.py lines 567-587): 404 when the order does not
exist, 403 when it belongs to another user, 400 (with detail "only pending
orders can be cancelled") when `status != OrderStatus.PENDING` — with no
store write in any error case — and otherwise a single update setting
`status` to `cancelled`. -/
def cancelOrder (order : Option COrder) (userId : String) :
    Except HttpError (List Action) :=
  match order with
  | none => Except.error HttpError.notFound
  | some o =>
    if o.userId ≠ userId then Except.error HttpError.forbidden
    else if o.status ≠ OrderStatus.pending then Except.error HttpError.badRequest
    else Except.ok [Action.updateOrder o.objectId { status := some OrderStatus.cancelled }]

example :
    cancelOrder (some ⟨"o1", "u1", OrderStatus.pending⟩) "u1" =
    Except.ok [Action.updateOrder "o1" { status := some OrderStatus.cancelled }] := rfl

example :
    cancelOrder (some ⟨"o1", "u1", OrderStatus.paid⟩) "u1" =
    Except.error HttpError.badRequest := rfl

/-! ## The object store and the settlement race (parse_client.py lines 81-83) -/

/-- The `Product` fields touched by the sweeper's completion write. -/
structure Product where
  objectId : String
  owner : Option String := none
  sales : Int := 0
deriving DecidableEq, Repr

/-- A one-order, one-product slice of the Parse object store. -/
structure Store where
  order : SwOrder
  product : Product
deriving DecidableEq, Repr

/-- `ParseClient.update_object` (parse_client.py lines 81-83) applied to
this store slice: a plain `PUT` of the patch.  The method takes only
`(class_name, object_id, data)` — there is no expected-state or version
argument, so the write is unconditional: it never compares the stored
state with anything before applying the patch. -/
def applyActionStore (s : Store) (a : Action) : Store :=
  match a with
  | Action.updateOrder oid p =>
    if oid = s.order.objectId then
      { s with order := { s.order with status := p.status.getD s.order.status } }
    else s
  | Action.updateProduct pid p =>
    if pid = s.product.objectId then
      { s with product :=
        { s.product with owner := p.owner.getD s.product.owner,
                         sales := s.product.sales + p.salesIncrement.getD 0 } }
    else s
  | _ => s

/-- Apply a trace of store writes in order. -/
def applyActionsStore (s : Store) (acts : List Action) : Store :=
  acts.foldl applyActionStore s

/-- The lost-update interleaving of two settlement processors on the same
PAID order: both read the order from `s` (both see PAID), both obtain the
same confirmed-and-verified verification result, and both persist their
completion writes through the unconditional `update_object`. -/
def raceBothComplete (s : Store) (vr : VerifyOutcome) (nowIso : String) : Store :=
  let acts := sweeperDispatch s.order vr nowIso
  applyActionsStore (applyActionsStore s acts) acts

/-! ## Re-driving the webhook settlement -/

/-- Whether an action is an `Order` update. -/
def Action.isOrderUpdate : Action → Bool
  | Action.updateOrder _ _ => true
  | _ => false

/-- Effect of a settlement trace on the order record itself: `updateOrder`
writes targeting this order apply their `status` patch (the only patched
order field that the settlement handlers later re-read). -/
def applySettleActions (o : WOrder) (acts : List Action) : WOrder :=
  acts.foldl
    (fun ord a =>
      match a with
      | Action.updateOrder oid p =>
        if oid = ord.objectId then { ord with status := p.status.getD ord.status }
        else ord
      | _ => ord) o

/-- Drive the webhook settlement `n` times against the same callback data,
re-reading the order record (as updated by the previous drive's writes)
each time; returns the final order and the concatenated action trace. -/
def settleN (n : Nat) (o : WOrder) (u inv : WUser) (nowIso : String)
    (transactionId : Option String) (newExpire : String) : WOrder × List Action :=
  match n with
  | 0 => (o, [])
  | Nat.succ m =>
    let r := wechatCallbackSettle o u inv nowIso transactionId newExpire
    let o2 := applySettleActions o r.actions
    let rest := settleN m o2 u inv nowIso transactionId newExpire
    (rest.1, r.actions ++ rest.2)

lemma applySettleActions_nil (o : WOrder) : applySettleActions o [] = o := rfl

lemma applySettleActions_cons (o : WOrder) (a : Action) (acts : List Action) :
    applySettleActions o (a :: acts) =
      applySettleActions
        (match a with
         | Action.updateOrder oid p =>
           if oid = o.objectId then { o with status := p.status.getD o.status } else o
         | _ => o) acts := rfl

lemma applySettleActions_no_order_write (o : WOrder) (acts : List Action)
    (h : ∀ a ∈ acts, a.isOrderUpdate = false) : applySettleActions o acts = o := by
  induction acts generalizing o with
  | nil => rfl
  | cons a as ih =>
    rw [applySettleActions_cons]
    have ha := h a (List.mem_cons_self a as)
    have htail : ∀ b ∈ as, b.isOrderUpdate = false :=
      fun b hb => h b (List.mem_cons_of_mem a hb)
    cases a with
    | updateOrder oid p => simp [Action.isOrderUpdate] at ha
    | updateProduct pid p => exact ih o htail
    | updateUser uid p => exact ih o htail
    | createIncentiveLog e => exact ih o htail
    | createPurchase p => exact ih o htail
    | mint addr amt => exact ih o htail
    | enqueueTask t g => exact ih o htail

lemma subscriptionEffects_no_order_write (o : WOrder) (u : WUser) (e : String) :
    ∀ a ∈ subscriptionEffects o u e, a.isOrderUpdate = false := by
  intro a ha
  unfold subscriptionEffects at ha
  rcases hp : o.plan with _ | planId
  · simp only [hp] at ha
    simp at ha
  · simp only [hp] at ha
    rcases hl : lookupPlan planId with _ | plan
    · simp only [hl] at ha
      simp at ha
    · simp only [hl] at ha
      rcases hw : u.web3Address with _ | addr
      · simp only [hw] at ha
        simp at ha
        simp [ha, Action.isOrderUpdate]
      · simp only [hw] at ha
        by_cases hc : 0 < plan.coins
        · rw [if_pos hc] at ha
          simp at ha
          rcases ha with ha | ha | ha <;> simp [ha, Action.isOrderUpdate]
        · rw [if_neg hc] at ha
          simp at ha
          simp [ha, Action.isOrderUpdate]

lemma rechargeEffects_no_order_write (o : WOrder) (u : WUser) :
    ∀ a ∈ rechargeEffects o u, a.isOrderUpdate = false := by
  intro a ha
  unfold rechargeEffects at ha
  rcases hw : u.web3Address with _ | addr
  · simp only [hw] at ha
    simp at ha
  · simp only [hw] at ha
    simp at ha
    rcases ha with ha | ha <;> simp [ha, Action.isOrderUpdate]

lemma purchaseEffects_no_order_write (o : WOrder) :
    ∀ a ∈ purchaseEffects o, a.isOrderUpdate = false := by
  intro a ha
  unfold purchaseEffects at ha
  split at ha
  · rw [List.mem_flatMap] at ha
    obtain ⟨item, _hit, hmem⟩ := ha
    rcases hpid : item.product_id with _ | pid
    · simp only [hpid] at hmem
      simp at hmem
      simp [hmem, Action.isOrderUpdate]
    · simp only [hpid] at hmem
      simp at hmem
      rcases hmem with hmem | hmem <;> simp [hmem, Action.isOrderUpdate]
  · rcases hpid : o.productId with _ | pid
    · simp only [hpid] at ha
      simp at ha
    · simp only [hpid] at ha
      simp at ha
      rcases ha with ha | ha <;> simp [ha, Action.isOrderUpdate]

lemma inviteRewardActions_no_order_write (r : ℤ) (u inv : WUser) :
    ∀ a ∈ inviteRewardActions r u inv, a.isOrderUpdate = false := by
  intro a ha
  unfold inviteRewardActions at ha
  rcases hi : u.inviterId with _ | invId
  · simp only [hi] at ha
    simp at ha
  · simp only [hi] at ha
    by_cases hf : u.firstRechargeRewarded = true
    · simp only [hf, if_true] at ha
      simp at ha
    · simp only [hf, if_false, Bool.false_eq_true] at ha
      rcases hw : inv.web3Address with _ | addr
      · simp only [hw] at ha
        simp at ha
        simp [ha, Action.isOrderUpdate]
      · simp only [hw] at ha
        simp at ha
        rcases ha with ha | ha | ha <;> simp [ha, Action.isOrderUpdate]

/-- The kind-specific effect branch of the webhook handler never writes
the order record. -/
lemma effectsBranch_no_order_write (o : WOrder) (u : WUser) (e : String) :
    ∀ a ∈ (if o.otype = "subscription" ∧ o.plan.isSome then
             subscriptionEffects o u e
           else if o.otype = "recharge" then rechargeEffects o u
           else if o.otype = "purchase" then purchaseEffects o
           else []),
      a.isOrderUpdate = false := by
  intro a ha
  split at ha
  · exact subscriptionEffects_no_order_write o u e a ha
  · split at ha
    · exact rechargeEffects_no_order_write o u a ha
    · split at ha
      · exact purchaseEffects_no_order_write o a ha
      · simp at ha

lemma applySettleActions_append (o : WOrder) (xs ys : List Action) :
    applySettleActions o (xs ++ ys) =
      applySettleActions (applySettleActions o xs) ys := by
  unfold applySettleActions
  rw [List.foldl_append]

/-- A settlement drive on an order whose status is not `paid` leaves the
re-read order record equal to the original with status `paid`. -/
lemma settle_drive_sets_paid (o : WOrder) (u inv : WUser) (now : String)
    (txid : Option String) (exp : String) (h : o.status ≠ OrderStatus.paid) :
    applySettleActions o (wechatCallbackSettle o u inv now txid exp).actions =
      { o with status := OrderStatus.paid } := by
  have hacts : (wechatCallbackSettle o u inv now txid exp).actions =
      ([Action.updateOrder o.objectId
          { status := some OrderStatus.paid, paidAt := some now,
            transactionId := some txid }]
        ++ (if o.otype = "subscription" ∧ o.plan.isSome then
              subscriptionEffects o u exp
            else if o.otype = "recharge" then rechargeEffects o u
            else if o.otype = "purchase" then purchaseEffects o
            else []))
        ++ inviteRewardActions (inviteRewardCallback o.amount) u inv := by
    unfold wechatCallbackSettle
    rw [if_neg h]
  rw [hacts, applySettleActions_append, applySettleActions_append]
  have h1 : applySettleActions o
      [Action.updateOrder o.objectId
        { status := some OrderStatus.paid, paidAt := some now,
          transactionId := some txid }] = { o with status := OrderStatus.paid } := by
    simp [applySettleActions]
  rw [h1,
    applySettleActions_no_order_write _ _ (effectsBranch_no_order_write o u exp),
    applySettleActions_no_order_write _ _
      (inviteRewardActions_no_order_write (inviteRewardCallback o.amount) u inv)]

/-- Once the order record reads `paid`, every further drive is a success
with an empty action trace. -/
lemma settleN_paid_noop (n : Nat) (o : WOrder) (u inv : WUser) (now : String)
    (txid : Option String) (exp : String) (h : o.status = OrderStatus.paid) :
    settleN n o u inv now txid exp = (o, []) := by
  induction n with
  | zero => rfl
  | succ m ih =>
    have hs : wechatCallbackSettle o u inv now txid exp =
        { success := true, actions := [] } := by
      unfold wechatCallbackSettle
      rw [if_pos h]
    rw [settleN, hs]
    simpa [applySettleActions_nil] using ih

/-! ## Fold decomposition lemmas for the sweeper loops -/

lemma paidTxStep_id (now : String) (acc : Nat × List Action) (o : SwOrder) :
    paidTxStep now acc o = acc := by
  unfold paidTxStep
  rcases ht : o.txHash with _ | txh
  · simp only [ht]
  · simp only [ht, importVerifyTxStatus]

lemma pendingStep_decompose (q : String → Except String WxPayResult)
    (u : String → OrderPatch → Except String Unit) (o : POrder)
    (b : Nat × List Action) :
    pendingStep q u b o =
      (b.1 + (pendingStep q u (0, []) o).1, b.2 ++ (pendingStep q u (0, []) o).2) := by
  unfold pendingStep
  rcases hq : q o.orderId with msg | pr
  · simp only [hq]
    simp
  · simp only [hq]
    by_cases ht : pr.tradeState = "SUCCESS"
    · simp only [ht, if_true]
      rcases hu : u o.objectId arqPendingPatch with m2 | u2
      · simp only [hu]
        simp
      · simp only [hu]
        simp
    · simp only [ht, if_false]
      simp [ht]

lemma pendingStep_shift (q : String → Except String WxPayResult)
    (u : String → OrderPatch → Except String Unit)
    (orders : List POrder) (a : Nat × List Action) :
    orders.foldl (pendingStep q u) a =
      (a.1 + (orders.foldl (pendingStep q u) (0, [])).1,
       a.2 ++ (orders.foldl (pendingStep q u) (0, [])).2) := by
  induction orders generalizing a with
  | nil => simp
  | cons o os ih =>
    rw [List.foldl_cons, List.foldl_cons, ih (pendingStep q u a o),
      ih (pendingStep q u (0, []) o), pendingStep_decompose q u o a]
    simp [Nat.add_assoc, List.append_assoc]

/-! ## Claim theorems -/

/-- C1: for a PAID order whose verification comes back `confirmed` but NOT
verified (address or amount mismatch), the sweeper's dispatch issues no
store write at all — in particular it does not transition the order to
`payment_failed` and sets no `failureReason` (the claimed transition does
not happen; the order silently stays `paid`). -/
theorem sweeper_mismatch_no_state_change (o : SwOrder) (vr : VerifyOutcome)
    (now : String) (h1 : vr.txStatus = TxStatus.confirmed)
    (h2 : vr.verified = false) :
    sweeperDispatch o vr now = [] := by
  unfold sweeperDispatch
  rw [if_neg, if_neg]
  · rw [h1]
    decide
  · rintro ⟨-, hv⟩
    rw [h2] at hv
    cases hv

/-- C1 witness: a concrete confirmed-but-underpaying transfer (value 5
against expected 10, addresses matching) produces a mismatch outcome, and
the sweeper dispatch on a concrete PAID order is empty. -/
theorem sweeper_mismatch_no_state_change_witness :
    (verifyTransfer
      (getTransaction (RpcResult.ok (some ⟨"0xa", "0xb", 5⟩)) (RpcResult.ok (some "0x1")))
      "0xa" "0xb" 10).txStatus = TxStatus.confirmed ∧
    sweeperDispatch ⟨"o1", OrderStatus.paid, some "tx1", some "0xa", some "0xb", 10, some "p1"⟩
      (verifyTransfer
        (getTransaction (RpcResult.ok (some ⟨"0xa", "0xb", 5⟩)) (RpcResult.ok (some "0x1")))
        "0xa" "0xb" 10) "t0" = [] :=
  ⟨by decide,
   sweeper_mismatch_no_state_change _ _ _ (by decide) (by decide)⟩

/-- C1 counterexample: on the concrete mismatch (amount 5 transferred,
10 expected), the sweeper's action trace is empty — no transition to
PAYMENT_FAILED, no `failureReason`, contradicting the claimed transition. -/
theorem sweeper_mismatch_cex :
    (verifyTransfer
      (getTransaction (RpcResult.ok (some ⟨"0xa", "0xb", 5⟩)) (RpcResult.ok (some "0x1")))
      "0xa" "0xb" 10).verified = false ∧
    (verifyTransfer
      (getTransaction (RpcResult.ok (some ⟨"0xa", "0xb", 5⟩)) (RpcResult.ok (some "0x1")))
      "0xa" "0xb" 10).txStatus = TxStatus.confirmed ∧
    sweeperDispatch ⟨"o2", OrderStatus.paid, some "tx2", some "0xa", some "0xb", 10, some "p2"⟩
      (verifyTransfer
        (getTransaction (RpcResult.ok (some ⟨"0xa", "0xb", 5⟩)) (RpcResult.ok (some "0x1")))
        "0xa" "0xb" 10) "t0" = [] := by
  decide

/-- C2: `grant_incentive` performs no existing-entry lookup: every call
with a bound address and positive amount appends one more ledger row for
the same `(orderId, kind)`, no matter how many are already there. -/
theorem grantIncentive_appends_unconditionally (logs : List IncentiveLogEntry)
    (uid addr k : String) (amt : ℚ) (d oid : String) (ts : Bool)
    (th : Option String) (ha : addr ≠ "") (hamt : 0 < amt) :
    ledgerCount ((grantIncentive logs uid addr k amt d (some oid) ts th).2) oid k =
      ledgerCount logs oid k + 1 := by
  unfold grantIncentive
  rw [if_neg ha, if_neg (not_le.mpr hamt)]
  unfold ledgerCount
  rw [List.filter_append]
  simp [List.filter]

/-- C2 witness: one call on an empty ledger yields one matching row. -/
theorem grantIncentive_appends_unconditionally_witness :
    ledgerCount ((grantIncentive [] "u1" "0xa" "recharge" 5 "reward" (some "o1") true (some "t1")).2)
      "o1" "recharge" = ledgerCount [] "o1" "recharge" + 1 :=
  grantIncentive_appends_unconditionally [] "u1" "0xa" "recharge" 5 "reward" "o1"
    true (some "t1") (by decide) (by norm_num)

/-- C2 counterexample: re-driving the same grant twice for the same
`(orderId, kind)` leaves two ledger rows, violating at-most-once. -/
theorem grantIncentive_duplicate_cex :
    ledgerCount
      ((grantIncentive
        ((grantIncentive [] "u1" "0xa" "recharge" 5 "reward" (some "o1") true (some "t1")).2)
        "u1" "0xa" "recharge" 5 "reward" (some "o1") true (some "t2")).2)
      "o1" "recharge" = 2 := by
  norm_num [grantIncentive, ledgerCount, List.filter]

/-- C3 (amended): once the webhook settlement has settled an order — its
status reads `paid`, the state the short-circuit actually tests — every
later drive returns success with an empty action trace, so N ≥ 1 drives
from `pending` apply the side effects of the single first drive only.
(The short-circuit tests `paid`, not `completed`: see the
counterexample.) -/
theorem wechatCallback_redrive_noop (n : Nat) (o : WOrder) (u inv : WUser)
    (now : String) (txid : Option String) (exp : String)
    (h : o.status = OrderStatus.pending) :
    (settleN (n + 1) o u inv now txid exp).2 =
      (wechatCallbackSettle o u inv now txid exp).actions ∧
    wechatCallbackSettle
      (applySettleActions o (wechatCallbackSettle o u inv now txid exp).actions)
      u inv now txid exp = { success := true, actions := [] } := by
  have hne : o.status ≠ OrderStatus.paid := by
    rw [h]
    decide
  have hdrive := settle_drive_sets_paid o u inv now txid exp hne
  constructor
  · rw [settleN, hdrive, settleN_paid_noop n _ u inv now txid exp rfl]
    simp
  · rw [hdrive]
    unfold wechatCallbackSettle
    rw [if_pos rfl]

/-- C3 witness: driving a concrete pending recharge order twice produces
the first drive's actions only, and the re-drive is an empty success. -/
theorem wechatCallback_redrive_noop_witness :
    (settleN 1 ⟨"o1", "N1", "u1", "recharge", 1, OrderStatus.pending, none, none, []⟩
        ⟨"u1", "alice", some "0xa", none, false, none⟩
        ⟨"u2", "bob", none, none, false, none⟩ "t0" (some "wx1") "e0").2 =
      (wechatCallbackSettle ⟨"o1", "N1", "u1", "recharge", 1, OrderStatus.pending, none, none, []⟩
        ⟨"u1", "alice", some "0xa", none, false, none⟩
        ⟨"u2", "bob", none, none, false, none⟩ "t0" (some "wx1") "e0").actions ∧
    wechatCallbackSettle
      (applySettleActions ⟨"o1", "N1", "u1", "recharge", 1, OrderStatus.pending, none, none, []⟩
        (wechatCallbackSettle ⟨"o1", "N1", "u1", "recharge", 1, OrderStatus.pending, none, none, []⟩
          ⟨"u1", "alice", some "0xa", none, false, none⟩
          ⟨"u2", "bob", none, none, false, none⟩ "t0" (some "wx1") "e0").actions)
      ⟨"u1", "alice", some "0xa", none, false, none⟩
      ⟨"u2", "bob", none, none, false, none⟩ "t0" (some "wx1") "e0" =
      { success := true, actions := [] } :=
  wechatCallback_redrive_noop 0 _ _ _ "t0" (some "wx1") "e0" rfl

/-- C3 counterexample: the webhook's idempotence short-circuit compares
the status with `paid`, not `completed` — re-driving settlement of an
order whose status is `completed` is NOT a no-op: it re-applies the side
effects (a fresh mint of 100 coins and a fresh IncentiveLog row) and
overwrites the order's status back to `paid`. -/
theorem wechatCallback_completed_redrive_cex :
    (wechatCallbackSettle
      ⟨"o1", "N1", "u1", "recharge", 1, OrderStatus.completed, none, none, []⟩
      ⟨"u1", "alice", some "0xa", none, false, none⟩
      ⟨"u2", "bob", none, none, false, none⟩ "t0" (some "wx1") "e0").actions =
    [Action.updateOrder "o1"
       { status := some OrderStatus.paid, paidAt := some "t0",
         transactionId := some (some "wx1") },
     Action.mint "0xa" 100,
     Action.createIncentiveLog
       { userId := "u1", web3Address := "0xa", itype := "recharge",
         amount := 100, txHash := web3MintTxHash 100,
         description := "recharge coins" }] := by
  norm_num [wechatCallbackSettle, rechargeEffects, inviteRewardActions,
    inviteRewardCallback, pyInt]
  rw [if_neg (by decide : ¬ (OrderStatus.completed = OrderStatus.paid))]

/-- C4 (amended): a verification call whose chain query raises (timeout,
unreachable gateway) is reported with `tx_status = "error"` — not
`"pending"`, but also not `"failed"` — and the sweeper dispatch on such a
result issues no store write, leaving the order exactly as it was. -/
theorem verify_timeout_error_no_write (msg : String)
    (receiptResp : RpcResult (Option String)) (fa ta : String) (amt : Nat)
    (o : SwOrder) (now : String) :
    (verifyTransfer (getTransaction (RpcResult.exn msg) receiptResp) fa ta amt).txStatus
        = TxStatus.error ∧
    (verifyTransfer (getTransaction (RpcResult.exn msg) receiptResp) fa ta amt).txStatus
        ≠ TxStatus.failed ∧
    sweeperDispatch o
      (verifyTransfer (getTransaction (RpcResult.exn msg) receiptResp) fa ta amt) now
      = [] := by
  have hv : verifyTransfer (getTransaction (RpcResult.exn msg) receiptResp) fa ta amt =
      { success := false, txStatus := TxStatus.error, errorMsg := some "query failed" } := rfl
  rw [hv]
  refine ⟨rfl, by decide, ?_⟩
  unfold sweeperDispatch
  rw [if_neg, if_neg] <;> decide

/-- C4 counterexample: the concrete timed-out verification is reported as
`error`, not as `pending` (the claim says timeouts are reported
`pending`). -/
theorem verify_timeout_not_pending_cex :
    (verifyTransfer (getTransaction (RpcResult.exn "timeout") (RpcResult.ok none))
      "0xa" "0xb" 10).txStatus = TxStatus.error ∧
    (verifyTransfer (getTransaction (RpcResult.exn "timeout") (RpcResult.ok none))
      "0xa" "0xb" 10).txStatus ≠ TxStatus.pending := by
  decide

/-- C5 (amended): `update_object` is an unconditional PUT, so there is no
compare-and-swap on `state`: when two settlement processors both read the
same PAID order and both obtain a confirmed-and-verified result, both
apply their side effects — the product's sales counter is incremented
twice — and both completion writes land; nothing detects the race and no
retry logic exists. -/
theorem race_both_apply_side_effects (s : Store) (vr : VerifyOutcome)
    (now : String) (hp : s.order.status = OrderStatus.paid)
    (hpid : s.order.productId = some s.product.objectId)
    (hc : vr.txStatus = TxStatus.confirmed) (hv : vr.verified = true) :
    (raceBothComplete s vr now).product.sales = s.product.sales + 2 ∧
    (raceBothComplete s vr now).order.status = OrderStatus.completed := by
  unfold raceBothComplete
  have hd : sweeperDispatch s.order vr now =
      [Action.updateProduct s.product.objectId
         { owner := some s.order.buyerAddress, salesIncrement := some 1 },
       Action.updateOrder s.order.objectId
         { status := some OrderStatus.completed, completedAt := some now }] := by
    unfold sweeperDispatch
    rw [if_pos ⟨hc, hv⟩]
    simp only [hpid]
    rfl
  rw [hd]
  simp [applyActionsStore, applyActionStore]
  omega

/-- C5 witness: the race on a concrete PAID order with product "p1"
(initial sales 0) ends with sales 0 + 2 and the order completed. -/
theorem race_both_apply_side_effects_witness :
    (raceBothComplete
      ⟨⟨"o1", OrderStatus.paid, some "tx1", some "0xa", some "0xb", 10, some "p1"⟩,
       ⟨"p1", none, 0⟩⟩
      ⟨true, true, TxStatus.confirmed, none⟩ "t0").product.sales = 0 + 2 ∧
    (raceBothComplete
      ⟨⟨"o1", OrderStatus.paid, some "tx1", some "0xa", some "0xb", 10, some "p1"⟩,
       ⟨"p1", none, 0⟩⟩
      ⟨true, true, TxStatus.confirmed, none⟩ "t0").order.status = OrderStatus.completed :=
  race_both_apply_side_effects
    ⟨⟨"o1", OrderStatus.paid, some "tx1", some "0xa", some "0xb", 10, some "p1"⟩,
     ⟨"p1", none, 0⟩⟩
    ⟨true, true, TxStatus.confirmed, none⟩ "t0" rfl rfl rfl rfl

/-- C5 counterexample: with both racers persisting through the
unconditional `update_object`, the concrete product's sales counter ends
at 2 — the side effects were applied twice, not exactly once as the claim
requires of the compare-and-swap. -/
theorem race_double_increment_cex :
    (raceBothComplete
      ⟨⟨"o9", OrderStatus.paid, some "tx9", some "0xa", some "0xb", 10, some "p9"⟩,
       ⟨"p9", none, 0⟩⟩
      ⟨true, true, TxStatus.confirmed, none⟩ "t0").product.sales = 2 := by
  decide

/-- C6 (amended): the webhook settlement sets `paidAt` (and the
transaction id) in the very write that moves the order into `paid`, but
the ARQ `process_pending_orders` sweep moves orders into `paid` with the
patch `{"status": "paid"}` alone — no `paidAt` — so not every operation
that moves an order into the paid state sets `paidAt`. -/
theorem paidAt_webhook_yes_arq_sweep_no (o : WOrder) (u inv : WUser)
    (now : String) (txid : Option String) (exp : String)
    (h : o.status ≠ OrderStatus.paid) :
    (wechatCallbackSettle o u inv now txid exp).actions.head? =
      some (Action.updateOrder o.objectId
        { status := some OrderStatus.paid, paidAt := some now,
          transactionId := some txid }) ∧
    arqPendingPatch.status = some OrderStatus.paid ∧
    arqPendingPatch.paidAt = none := by
  refine ⟨?_, rfl, rfl⟩
  unfold wechatCallbackSettle
  rw [if_neg h]
  rfl

/-- C6 witness: instantiated at a concrete pending order. -/
theorem paidAt_webhook_yes_arq_sweep_no_witness :
    (wechatCallbackSettle ⟨"o1", "N1", "u1", "recharge", 1, OrderStatus.pending, none, none, []⟩
      ⟨"u1", "alice", some "0xa", none, false, none⟩
      ⟨"u2", "bob", none, none, false, none⟩ "t0" (some "wx1") "e0").actions.head? =
      some (Action.updateOrder "o1"
        { status := some OrderStatus.paid, paidAt := some "t0",
          transactionId := some (some "wx1") }) ∧
    arqPendingPatch.status = some OrderStatus.paid ∧
    arqPendingPatch.paidAt = none :=
  paidAt_webhook_yes_arq_sweep_no _ _ _ "t0" (some "wx1") "e0" (by decide)

/-- C6 counterexample: one ARQ pending-sweep cycle on a concrete order
whose gateway query reports SUCCESS moves the order into `paid` via a
patch that leaves `paidAt` unset. -/
theorem arq_sweep_paid_without_paidAt_cex :
    processPendingOrders (fun _ => Except.ok ⟨"SUCCESS"⟩) (fun _ _ => Except.ok ())
      [⟨"obj1", "ord1"⟩] =
      (1, [Action.updateOrder "obj1" arqPendingPatch,
           Action.enqueueTask "process_paid_order" "obj1"]) ∧
    arqPendingPatch.status = some OrderStatus.paid ∧
    arqPendingPatch.paidAt = none := by
  decide

/-- C7: the two settlement paths compute different invite first-recharge
rewards from the same order amount: the webhook handler grants
`int(amount * 0.1)` while the mock-pay handler grants `int(amount * 10)` —
at amount 10 the webhook grants 1 coin and mock-pay grants 100 coins,
though both sites' comments claim a 10% reward. -/
theorem invite_reward_formulas_diverge :
    inviteRewardCallback 10 = 1 ∧ inviteRewardMockPay 10 = 100 ∧
    inviteRewardCallback 10 ≠ inviteRewardMockPay 10 := by
  refine ⟨?_, ?_, ?_⟩ <;>
    norm_num [inviteRewardCallback, inviteRewardMockPay, pyInt]

/-- C8: cancellation succeeds exactly from PENDING — the update sets the
status to `cancelled` — and on an order in any other state it raises an
explicit 400 error and issues no store write. -/
theorem cancelOrder_only_from_pending (o : COrder) (uid : String)
    (howner : o.userId = uid) :
    (o.status = OrderStatus.pending →
       cancelOrder (some o) uid =
         Except.ok [Action.updateOrder o.objectId
           { status := some OrderStatus.cancelled }]) ∧
    (o.status ≠ OrderStatus.pending →
       cancelOrder (some o) uid = Except.error HttpError.badRequest) := by
  constructor
  · intro hpending
    simp [cancelOrder, howner, hpending]
  · intro hother
    simp [cancelOrder, howner, hother]

/-- C8 witness: instantiated at a concrete pending order owned by its
caller. -/
theorem cancelOrder_only_from_pending_witness :
    cancelOrder (some ⟨"oc8", "u8", OrderStatus.pending⟩) "u8" =
      Except.ok [Action.updateOrder "oc8" { status := some OrderStatus.cancelled }] :=
  (cancelOrder_only_from_pending ⟨"oc8", "u8", OrderStatus.pending⟩ "u8" rfl).1 rfl

/-- C9: an error raised while processing one order of a pending-sweep
batch does not abort the batch: the failing order contributes nothing and
every order before and after it is processed exactly as if it were absent,
with the cycle still returning its processed-count/trace result. -/
theorem processPendingOrders_error_isolated
    (q : String → Except String WxPayResult)
    (u : String → OrderPatch → Except String Unit)
    (xs ys : List POrder) (y : POrder) (e : String)
    (hq : q y.orderId = Except.error e) :
    processPendingOrders q u (xs ++ y :: ys) =
      ((processPendingOrders q u xs).1 + (processPendingOrders q u ys).1,
       (processPendingOrders q u xs).2 ++ (processPendingOrders q u ys).2) := by
  unfold processPendingOrders
  rw [List.foldl_append, List.foldl_cons]
  have hy : pendingStep q u (List.foldl (pendingStep q u) (0, []) xs) y =
      List.foldl (pendingStep q u) (0, []) xs := by
    unfold pendingStep
    simp only [hq]
  rw [hy]
  exact pendingStep_shift q u ys _

/-- The gateway stub used by the C9 witness: order "bad" raises, the rest
report SUCCESS. -/
def qWitnessStub (oid : String) : Except String WxPayResult :=
  if oid = "bad" then Except.error "boom" else Except.ok ⟨"SUCCESS"⟩

/-- The store stub used by the C9 witness: updates always succeed. -/
def uWitnessStub (_oid : String) (_p : OrderPatch) : Except String Unit :=
  Except.ok ()

/-- C9 witness: with the middle order's gateway query raising, the orders
before and after it are still processed. -/
theorem processPendingOrders_error_isolated_witness :
    processPendingOrders qWitnessStub uWitnessStub
      ([⟨"a1", "g1"⟩] ++ ⟨"b1", "bad"⟩ :: [⟨"c1", "g2"⟩]) =
      ((processPendingOrders qWitnessStub uWitnessStub [⟨"a1", "g1"⟩]).1 +
         (processPendingOrders qWitnessStub uWitnessStub [⟨"c1", "g2"⟩]).1,
       (processPendingOrders qWitnessStub uWitnessStub [⟨"a1", "g1"⟩]).2 ++
         (processPendingOrders qWitnessStub uWitnessStub [⟨"c1", "g2"⟩]).2) :=
  processPendingOrders_error_isolated qWitnessStub uWitnessStub
    [⟨"a1", "g1"⟩] [⟨"c1", "g2"⟩] ⟨"b1", "bad"⟩ "boom" rfl

/-- C10: `payment.py` binds no top-level name `_verify_tx_status`, so the
sweeper's per-order import raises `ImportError`, the per-order handler
catches it, and every `process_paid_tx_orders` cycle — whatever the batch —
transitions no order, performs no store write, and returns
`{"processed": 0}`; orders with a `txHash` stay `paid` indefinitely. -/
theorem processPaidTxOrders_always_zero :
    "_verify_tx_status" ∉ paymentModuleNames ∧
    importVerifyTxStatus = none ∧
    ∀ (orders : List SwOrder) (now : String),
      processPaidTxOrders orders now = (0, []) := by
  refine ⟨by decide, rfl, ?_⟩
  intro orders now
  unfold processPaidTxOrders
  induction orders with
  | nil => rfl
  | cons o os ih =>
    rw [List.foldl_cons, paidTxStep_id]
    exact ih

end AigcCloud
